import Mathlib

/-!
Verification development for the kenja travel/expense application repository.

The definitions below are shallow embeddings of the repository's workflow
core:

* `advance_approval_workflow_mt` — the stored procedure
  `advance_approval_workflow` from
  `.bolt/supabase_discarded_migrations/20250824160636_maroon_tooth.sql`
  (lines 55-134).
* `advance_approval_workflow` — the later `CREATE OR REPLACE` of the same
  procedure from
  `.bolt/supabase_discarded_migrations/20250824162758_lucky_night.sql`
  (lines 344-443); with both migrations applied in timestamp order this is
  the operative definition.
* `calculateTotalAmount`, `createApplication`, `submitApplication`,
  `handleApproval` — from `src/hooks/useApplications.ts`.
* `calculate_application_total` — lucky_night.sql lines 446-469.
* `handle_notification_read`, `markAsRead` — the notification read trigger
  (maroon_tooth.sql lines 489-502) together with the client update that
  sets only `read = true`.
* `accountingIntegration`, `applicationApproval` — the serverless
  functions `supabase/functions/accounting-integration/index.ts` and
  `supabase/functions/application-approval/index.ts`.

Timestamps are modelled as `Nat` (`now` is passed explicitly), ids and
statuses as `String` (they are `uuid`/`text` in the store), and monetary
amounts as `Int` (yen amounts; the numeric columns are exact decimals and
every value appearing in the workflow is an integral number of yen).
Nullable columns are `Option`.
-/

namespace Kenja

/-- One row of the `applications` table, restricted to the columns the
workflow reads or writes (column list per the `Database` types in
`src/lib/supabase.ts`). -/
structure Application where
  id : String
  user_id : String
  type : String
  title : String
  total_amount : Int
  status : String
  submitted_at : Option Nat
  approved_at : Option Nat
  approved_by : Option String
  rejection_reason : Option String
  updated_at : Nat
  deriving Repr, DecidableEq

/-- One row of `application_approvals`.  The maroon_tooth variant of the
stored procedure inserts no `step` value (the column default, whose DDL is
not in the repository, would apply), so `step` is optional here; the
lucky_night variant always supplies `max step + 1`. -/
structure ApprovalRecord where
  application_id : String
  approver_id : String
  step : Option Nat
  status : String
  comment : Option String
  deriving Repr, DecidableEq

/-- One row of `notifications`.  `title`/`message` are `Option` because the
lucky_night procedure builds them with a `CASE` expression that has no
`ELSE` branch and therefore produces SQL `NULL` for unrecognised actions;
the table's DDL is not part of the repository, so the insert is modelled
as written. -/
structure NotificationRow where
  user_id : String
  type : String
  title : Option String
  message : Option String
  read : Bool
  read_at : Option Nat
  deriving Repr, DecidableEq

/-- One row of `accounting_integration_logs` (maroon_tooth.sql lines
353-365). -/
structure AccountingLog where
  application_id : String
  service_name : String
  operation_type : String
  status : String
  error_message : Option String
  retry_count : Nat
  deriving Repr, DecidableEq

/-- The slice of the relational store the workflow touches: the one
application under decision plus its approval, notification and accounting
log rows. -/
structure WorkflowState where
  app : Option Application
  approvals : List ApprovalRecord
  notifications : List NotificationRow
  logs : List AccountingLog
  deriving Repr, DecidableEq

/-- The `jsonb` object returned by `advance_approval_workflow`. -/
structure WfResult where
  success : Bool
  error : Option String
  action : Option String
  step : Option Nat
  deriving Repr, DecidableEq

/-- A freshly inserted notification row: `read` defaults to `false` and
`read_at` to `NULL` (the insert lists in both procedures name neither
column). -/
def mkNotification (uid ty : String) (title message : Option String) :
    NotificationRow :=
  { user_id := uid
    type := ty
    title := title
    message := message
    read := false
    read_at := none }

/-- A successful `jsonb_build_object('success', true, ...)` result. -/
def wfOk (action : String) (step : Option Nat) : WfResult :=
  { success := true
    error := none
    action := some action
    step := step }

/-- The `jsonb` result for a missing application. -/
def wfNotFound : WfResult :=
  { success := false
    error := some "Application not found"
    action := none
    step := none }

/-- `advance_approval_workflow` as defined in
`.bolt/supabase_discarded_migrations/20250824160636_maroon_tooth.sql`
lines 55-134.  It looks the application up (error when absent), inserts an
`application_approvals` row carrying the raw action, and then branches on
the action: `approved` sets `status/approved_at/approved_by` and notifies,
`rejected` sets `status/rejection_reason` and notifies, `returned` sets
only `status` and notifies, and any other action updates nothing further.
No branch inspects the current status and no branch validates the comment.
(The `updated_at` touch trigger is elided; it writes no field the claims
mention.) -/
def advance_approval_workflow_mt (st : WorkflowState) (p_approver_id : String)
    (p_action : String) (p_comment : Option String) (now : Nat) :
    WorkflowState × WfResult :=
  match st.app with
  | none => (st, wfNotFound)
  | some app =>
    let approvals := st.approvals ++
      [{ application_id := app.id
         approver_id := p_approver_id
         step := none
         status := p_action
         comment := p_comment }]
    if p_action = "approved" then
      let app' := { app with
        status := "approved"
        approved_at := some now
        approved_by := some p_approver_id }
      let n := mkNotification app.user_id "approval"
        (some "申請が承認されました")
        (some ("申請「" ++ app.title ++ "」が承認されました。"))
      ({ st with
          app := some app'
          approvals := approvals
          notifications := st.notifications ++ [n] },
       wfOk p_action none)
    else if p_action = "rejected" then
      let app' := { app with
        status := "rejected"
        rejection_reason := p_comment }
      let n := mkNotification app.user_id "approval"
        (some "申請が否認されました")
        (some ("申請「" ++ app.title ++ "」が否認されました。理由: " ++
          p_comment.getD "理由なし"))
      ({ st with
          app := some app'
          approvals := approvals
          notifications := st.notifications ++ [n] },
       wfOk p_action none)
    else if p_action = "returned" then
      let app' := { app with status := "returned" }
      let n := mkNotification app.user_id "approval"
        (some "申請が差戻されました")
        (some ("申請「" ++ app.title ++ "」が差戻されました。コメント: " ++
          p_comment.getD "コメントなし"))
      ({ st with
          app := some app'
          approvals := approvals
          notifications := st.notifications ++ [n] },
       wfOk p_action none)
    else
      ({ st with approvals := approvals }, wfOk p_action none)

/-- `COALESCE(MAX(step), 0)` over the approval rows of the application
(SQL `MAX` ignores `NULL` steps). -/
def maxStep (approvals : List ApprovalRecord) : Nat :=
  (approvals.filterMap (·.step)).foldr max 0

/-- The notification title chosen by the `CASE` expression of the
lucky_night procedure (no `ELSE`, hence `NULL` for other actions). -/
def lnTitle (action : String) : Option String :=
  if action = "approved" then some "申請が承認されました"
  else if action = "rejected" then some "申請が否認されました"
  else if action = "returned" then some "申請が差戻されました"
  else none

/-- The notification message `CASE` expression of the lucky_night
procedure. -/
def lnMessage (action : String) (title : String) (comment : Option String) :
    Option String :=
  if action = "approved" then some (title ++ "が承認されました。")
  else if action = "rejected" then
    some (title ++ "が否認されました。理由: " ++ comment.getD "理由なし")
  else if action = "returned" then
    some (title ++ "が差戻されました。理由: " ++ comment.getD "理由なし")
  else none

/-- `advance_approval_workflow` as defined in
`.bolt/supabase_discarded_migrations/20250824162758_lucky_night.sql`
lines 344-443 — the later `CREATE OR REPLACE`, hence the operative
version.  It looks the application up (error when absent), computes
`current_step = COALESCE(MAX(step), 0)`, inserts an approval row with
`step = current_step + 1` carrying the raw action, branches on the action
(`approved` reaches status `approved` only when `current_step >= 1`,
otherwise it re-writes `pending`; `rejected` sets `rejection_reason`;
`returned` sets only the status; other actions update nothing), and then
unconditionally inserts one notification for the submitter.  No branch
inspects the current status and no branch validates the comment. -/
def advance_approval_workflow (st : WorkflowState) (p_approver_id : String)
    (p_action : String) (p_comment : Option String) (now : Nat) :
    WorkflowState × WfResult :=
  match st.app with
  | none => (st, wfNotFound)
  | some app =>
    let current_step := maxStep st.approvals
    let approvals := st.approvals ++
      [{ application_id := app.id
         approver_id := p_approver_id
         step := some (current_step + 1)
         status := p_action
         comment := p_comment }]
    let app' :=
      if p_action = "approved" then
        if current_step ≥ 1 then
          { app with
            status := "approved"
            approved_at := some now
            approved_by := some p_approver_id }
        else
          { app with status := "pending" }
      else if p_action = "rejected" then
        { app with
          status := "rejected"
          rejection_reason := p_comment }
      else if p_action = "returned" then
        { app with status := "returned" }
      else app
    let n := mkNotification app.user_id "approval" (lnTitle p_action)
      (lnMessage p_action app.title p_comment)
    ({ st with
        app := some app'
        approvals := approvals
        notifications := st.notifications ++ [n] },
     wfOk p_action (some (current_step + 1)))

/-- The `tripDetails` object of an application's `data` payload, as read by
`calculateTotalAmount` in `src/hooks/useApplications.ts`.  Each estimate is
optional; the destructuring defaults (`= 0`) and JavaScript arithmetic
coercion both turn an absent value into `0`, modelled by `Option.getD 0`. -/
structure TripDetailsData where
  estimatedDailyAllowance : Option Int
  estimatedTransportation : Option Int
  estimatedAccommodation : Option Int
  deriving Repr, DecidableEq

/-- One entry of the `expenseItems` array of an application's `data`
payload; `item.amount || 0` is modelled by `Option.getD 0`. -/
structure ExpenseItemData where
  amount : Option Int
  deriving Repr, DecidableEq

/-- The `data` payload of an application, restricted to the parts
`calculateTotalAmount` reads. -/
structure AppData where
  tripDetails : Option TripDetailsData
  expenseItems : Option (List ExpenseItemData)
  deriving Repr, DecidableEq

/-- `calculateTotalAmount` from `src/hooks/useApplications.ts` lines
366-377: for `business_trip` with a `tripDetails` object it sums the three
estimates (each defaulted to 0); for `expense` with an `expenseItems`
array it sums `item.amount || 0`; otherwise 0.  (In the source the two
guards are successive early returns; they are mutually exclusive because
the type string cannot be both, so the `if/else` chain below is
equivalent, with each truthiness test falling through to the next guard.) -/
def calculateTotalAmount (ty : String) (data : AppData) : Int :=
  if ty = "business_trip" then
    match data.tripDetails with
    | some td =>
      td.estimatedDailyAllowance.getD 0 + td.estimatedTransportation.getD 0 +
        td.estimatedAccommodation.getD 0
    | none => 0
  else if ty = "expense" then
    match data.expenseItems with
    | some items => (items.map (fun i => i.amount.getD 0)).sum
    | none => 0
  else 0

/-- One row of `business_trip_details` as read by the SQL trigger function
`calculate_application_total` (estimate columns are nullable with default
0). -/
structure BusinessTripDetailRow where
  estimated_daily_allowance : Option Int
  estimated_transportation : Option Int
  estimated_accommodation : Option Int
  deriving Repr, DecidableEq

/-- One row of `expense_items` (`amount DECIMAL NOT NULL`). -/
structure ExpenseItemRow where
  amount : Int
  deriving Repr, DecidableEq

/-- `calculate_application_total` from lucky_night.sql lines 446-469: for
`business_trip` the total is
`COALESCE(da + transportation + accommodation, 0)` over the single detail
row — so a SQL `NULL` in any one column nulls the whole sum and `COALESCE`
turns it into 0 — and a missing row leaves the initial 0; for `expense`
the total is `COALESCE(SUM(amount), 0)`. -/
def calculate_application_total (ty : String)
    (trip : Option BusinessTripDetailRow) (items : List ExpenseItemRow) :
    Int :=
  if ty = "business_trip" then
    match trip with
    | some t =>
      match t.estimated_daily_allowance, t.estimated_transportation,
          t.estimated_accommodation with
      | some a, some b, some c => a + b + c
      | _, _, _ => 0
    | none => 0
  else if ty = "expense" then
    (items.map (·.amount)).sum
  else 0

/-- `createApplication` from `src/hooks/useApplications.ts` lines 128-234,
restricted to the inserted `applications` row: status starts at `draft`,
`total_amount` is `calculateTotalAmount(type, data)`, and the nullable
workflow columns take their column defaults (`NULL`). -/
def createApplication (uid ty title : String) (data : AppData) (id : String)
    (now : Nat) : Application :=
  { id := id
    user_id := uid
    type := ty
    title := title
    total_amount := calculateTotalAmount ty data
    status := "draft"
    submitted_at := none
    approved_at := none
    approved_by := none
    rejection_reason := none
    updated_at := now }

/-- `submitApplication` from `src/hooks/useApplications.ts` lines 263-289:
an unconditional `update({status:'pending', submitted_at: now, updated_at:
now}).eq('id', id)` — there is no check of the current status.  The call
fails (`.single()` yields an error) only when no row matches. -/
def submitApplication (st : WorkflowState) (now : Nat) :
    WorkflowState × Bool :=
  match st.app with
  | none => (st, false)
  | some app =>
    ({ st with app := some { app with
        status := "pending"
        submitted_at := some now
        updated_at := now } },
     true)

/-- `handleApproval` from `src/hooks/useApplications.ts` lines 313-351:
the client-side decision path that updates the `applications` row
directly: status becomes the action; `approved` also sets
`approved_at`/`approved_by`; `rejected`/`returned` also set
`rejection_reason := comment`.  No status precondition, no comment
validation. -/
def handleApproval (st : WorkflowState) (userId : String) (action : String)
    (comment : Option String) (now : Nat) : WorkflowState × Bool :=
  match st.app with
  | none => (st, false)
  | some app =>
    let app' :=
      if action = "approved" then
        { app with
          status := action
          approved_at := some now
          approved_by := some userId
          updated_at := now }
      else if action = "rejected" ∨ action = "returned" then
        { app with
          status := action
          rejection_reason := comment
          updated_at := now }
      else
        { app with status := action, updated_at := now }
    ({ st with app := some app' }, true)

/-- The trigger function `handle_notification_read` (maroon_tooth.sql
lines 489-502; the lucky_night variant drops the `OLD.read IS NULL` arm,
which coincides with this one on boolean rows): a `BEFORE UPDATE` trigger
that stamps `read_at = now()` exactly when the update turns `read` from
false to true, and otherwise leaves the proposed row untouched. -/
def handle_notification_read (oldRow newRow : NotificationRow) (now : Nat) :
    NotificationRow :=
  if newRow.read = true ∧ oldRow.read = false then
    { newRow with read_at := some now }
  else newRow

/-- `markAsRead` (the `useNotifications` hook): the persisted effect is an
`update({ read: true })` on the row, which the `handle_notification_read`
trigger then processes.  The update payload touches no other column, so
the proposed new row is the old row with `read := true`. -/
def markAsRead (n : NotificationRow) (now : Nat) : NotificationRow :=
  handle_notification_read n { n with read := true } now

/-- Outcome of the external accounting service call made inside
`accounting-integration` (the `fetch` to freee/MoneyForward/Yayoi):
either an OK response or a thrown error (HTTP error status or network
failure) with its message. -/
inductive ServiceCall where
  | ok (response : String)
  | fail (msg : String)
  deriving Repr, DecidableEq

/-- The accounting configuration the `accounting-integration` function
reads from `organizations.settings.accounting`: the default service name
and, when configured, its credentials. -/
structure AccountingEnv where
  serviceName : String
  credentials : Option String
  call : ServiceCall
  deriving Repr, DecidableEq

/-- The CHECK constraint of `accounting_integration_logs.operation_type`
(maroon_tooth.sql line 357): `operation_type IN ('create', 'update',
'delete')`. -/
def operationTypeAllowed (op : String) : Bool :=
  op = "create" ∨ op = "update" ∨ op = "delete"

/-- `logAccountingOperation` from
`supabase/functions/accounting-integration/index.ts` lines 333-357: an
insert into `accounting_integration_logs` with `retry_count := 0`.  The
insert is subject to the table's CHECK constraint on `operation_type`; a
violating insert is rejected by the store, and the function swallows the
error (the supabase client reports it as a result value the function never
reads, and the surrounding try/catch only logs to the console), so the
state is unchanged. -/
def logAccountingOperation (logs : List AccountingLog)
    (applicationId serviceName operationType status : String)
    (errorMessage : Option String) : List AccountingLog :=
  if operationTypeAllowed operationType then
    logs ++
      [{ application_id := applicationId
         service_name := serviceName
         operation_type := operationType
         status := status
         error_message := errorMessage
         retry_count := 0 }]
  else logs

/-- The `accounting-integration` serverless function
(`supabase/functions/accounting-integration/index.ts`), for a request with
the given `action` (the approval flow always sends `create_entry`): 404
when the application is missing; with no configured credentials it logs a
`failed` row with message `Service credentials not configured` and
returns HTTP 400; otherwise it performs the service call, logging
`success` (HTTP 200) or `failed` with the thrown message (HTTP 500).
Every log insert passes the request's `action` as the `operation_type`
column value. -/
def accountingIntegration (st : WorkflowState) (applicationId action : String)
    (env : AccountingEnv) : WorkflowState × Nat :=
  match st.app with
  | none => (st, 404)
  | some _ =>
    match env.credentials with
    | none =>
      let logs' := logAccountingOperation st.logs applicationId
        env.serviceName action "failed"
        (some "Service credentials not configured")
      ({ st with logs := logs' }, 400)
    | some _ =>
      match env.call with
      | .ok _response =>
        let logs' := logAccountingOperation st.logs applicationId
          env.serviceName action "success" none
        ({ st with logs := logs' }, 200)
      | .fail msg =>
        let logs' := logAccountingOperation st.logs applicationId
          env.serviceName action "failed" (some msg)
        ({ st with logs := logs' }, 500)

/-- How the `application-approval` function's `fetch` to
`accounting-integration` goes: either the request reaches the function
(whatever it then returns), or the fetch itself throws (network failure
between the two functions), which the surrounding try/catch turns into a
console warning. -/
inductive AcctDispatch where
  | reached (env : AccountingEnv)
  | netFail
  deriving Repr, DecidableEq

/-- The request body of the `application-approval` function. -/
structure ApprovalRequest where
  applicationId : String
  action : String
  comment : Option String
  approverId : String
  deriving Repr, DecidableEq

/-- `comment || null` in the `application-approval` function: an absent or
empty comment is passed to the stored procedure as SQL `NULL`. -/
def emptyToNull (c : Option String) : Option String :=
  match c with
  | none => none
  | some s => if s = "" then none else some s

/-- The HTTP response of the `application-approval` function (status code
plus whether the JSON body carries `success: true`). -/
structure EdgeResponse where
  status : Nat
  success : Bool
  deriving Repr, DecidableEq

/-- The `application-approval` serverless function
(`supabase/functions/application-approval/index.ts`): 400 on missing
required fields; 404 when the approver profile or the application is not
found; then it invokes the stored procedure `advance_approval_workflow`
(the operative lucky_night version) with `comment || null`; when the
requested action is `approved` it additionally calls
`accounting-integration` with action `create_entry`, catching any failure
with only a console warning — the already-committed approval is never
rolled back; finally it answers 200 with `success: true`.  (The
`workflowError` branch guards postgres-level errors of the rpc; the
embedded procedure is total, so it does not arise.) -/
def applicationApproval (st : WorkflowState) (req : ApprovalRequest)
    (approverFound : Bool) (acct : AcctDispatch) (now : Nat) :
    WorkflowState × EdgeResponse :=
  if req.applicationId = "" ∨ req.action = "" ∨ req.approverId = "" then
    (st, { status := 400, success := false })
  else if ¬ approverFound then
    (st, { status := 404, success := false })
  else
    match st.app with
    | none => (st, { status := 404, success := false })
    | some _ =>
      let (st1, _wf) := advance_approval_workflow st req.approverId
        req.action (emptyToNull req.comment) now
      let st2 :=
        if req.action = "approved" then
          match acct with
          | .reached env =>
            (accountingIntegration st1 req.applicationId "create_entry" env).1
          | .netFail => st1
        else st1
      (st2, { status := 200, success := true })

/-! ### Concrete fixtures used by witnesses and counterexamples -/

/-- A freshly created draft expense application. -/
def appDraft : Application :=
  { id := "app-1"
    user_id := "user-1"
    type := "expense"
    title := "経費申請"
    total_amount := 7500
    status := "draft"
    submitted_at := none
    approved_at := none
    approved_by := none
    rejection_reason := none
    updated_at := 0 }

/-- The same application after submission. -/
def appPending : Application :=
  { appDraft with status := "pending", submitted_at := some 1, updated_at := 1 }

/-- The same application after a final approval. -/
def appApproved : Application :=
  { appPending with
    status := "approved"
    approved_at := some 3
    approved_by := some "apr-1"
    updated_at := 3 }

/-- Store slice holding the draft application. -/
def stDraft : WorkflowState :=
  { app := some appDraft, approvals := [], notifications := [], logs := [] }

/-- Store slice holding the pending application. -/
def stPending : WorkflowState :=
  { app := some appPending, approvals := [], notifications := [], logs := [] }

/-- Store slice holding the approved application. -/
def stApproved : WorkflowState :=
  { app := some appApproved, approvals := [], notifications := [], logs := [] }

/-- Store slice holding a pending application that already carries one
approval of step 1 (a first-step `approved` decision recorded by the
lucky_night procedure). -/
def stPendingStep1 : WorkflowState :=
  { app := some appPending
    approvals := [{ application_id := "app-1"
                    approver_id := "apr-0"
                    step := some 1
                    status := "approved"
                    comment := none }]
    notifications := []
    logs := [] }

/-- An unread notification. -/
def unreadNotification : NotificationRow :=
  { user_id := "user-1"
    type := "approval"
    title := some "申請が承認されました"
    message := some "msg"
    read := false
    read_at := none }

/-! ### Claim theorems -/

/-- C5: an application's `total_amount` is the sum of the three
`BusinessTripDetail` estimates (missing values defaulting to 0) for type
`business_trip`, and the sum of the `ExpenseItem` amounts for type
`expense`; `createApplication` stores exactly this value; the estimates
15000/22500/15000 give 52500 and the items 3000/4500 give 7500; the SQL
trigger `calculate_application_total` computes the same sums (whole-sum
`COALESCE` for trips, `SUM` for expenses). -/
theorem total_amount_spec :
    (∀ (d : AppData) (td : TripDetailsData), d.tripDetails = some td →
      calculateTotalAmount "business_trip" d =
        td.estimatedDailyAllowance.getD 0 + td.estimatedTransportation.getD 0 +
          td.estimatedAccommodation.getD 0) ∧
    (∀ (d : AppData) (items : List ExpenseItemData),
      d.expenseItems = some items →
      calculateTotalAmount "expense" d =
        (items.map (fun i => i.amount.getD 0)).sum) ∧
    (∀ uid title id now,
      (createApplication uid "business_trip" title
        ⟨some ⟨some 15000, some 22500, some 15000⟩, none⟩ id now).total_amount
        = 52500) ∧
    (∀ uid title id now,
      (createApplication uid "expense" title
        ⟨none, some [⟨some 3000⟩, ⟨some 4500⟩]⟩ id now).total_amount = 7500) ∧
    (∀ uid ty title data id now,
      (createApplication uid ty title data id now).total_amount =
        calculateTotalAmount ty data) ∧
    (∀ (t : BusinessTripDetailRow) (a b c : Int),
      t.estimated_daily_allowance = some a →
      t.estimated_transportation = some b →
      t.estimated_accommodation = some c →
      calculate_application_total "business_trip" (some t) [] = a + b + c) ∧
    (∀ items : List ExpenseItemRow,
      calculate_application_total "expense" none items =
        (items.map (·.amount)).sum) := by
  refine ⟨?_, ?_, ?_, ?_, ?_, ?_, ?_⟩
  · intro d td h
    simp [calculateTotalAmount, h]
  · intro d items h
    simp [calculateTotalAmount, h]
  · intro uid title id now
    rfl
  · intro uid title id now
    rfl
  · intro uid ty title data id now
    rfl
  · intro t a b c h1 h2 h3
    simp [calculate_application_total, h1, h2, h3]
  · intro items
    simp [calculate_application_total]

/-- Witness for `total_amount_spec` at the concrete scenario-B trip data. -/
theorem total_amount_spec_witness :
    (AppData.tripDetails ⟨some ⟨some 15000, some 22500, some 15000⟩, none⟩ =
      some ⟨some 15000, some 22500, some 15000⟩) ∧
    calculateTotalAmount "business_trip"
      ⟨some ⟨some 15000, some 22500, some 15000⟩, none⟩ = 52500 :=
  ⟨rfl, total_amount_spec.1 ⟨some ⟨some 15000, some 22500, some 15000⟩, none⟩
    ⟨some 15000, some 22500, some 15000⟩ rfl⟩

/-- C9: `markAsRead` is idempotent — on an unread notification the first
call sets `read` and stamps `read_at` with the current time, and a second
call returns the row completely unchanged (in particular `read_at` keeps
its first-set value): the `handle_notification_read` trigger only stamps
`read_at` on the false→true transition of `read`. -/
theorem markAsRead_idempotent (n : NotificationRow) (t1 t2 : Nat)
    (h : n.read = false) :
    (markAsRead n t1).read = true ∧
    (markAsRead n t1).read_at = some t1 ∧
    markAsRead (markAsRead n t1) t2 = markAsRead n t1 := by
  cases n with
  | mk uid ty title message rd rd_at =>
    subst h
    refine ⟨rfl, rfl, ?_⟩
    simp [markAsRead, handle_notification_read]

/-- Witness for `markAsRead_idempotent` on a concrete unread
notification. -/
theorem markAsRead_idempotent_witness :
    unreadNotification.read = false ∧
    ((markAsRead unreadNotification 4).read = true ∧
      (markAsRead unreadNotification 4).read_at = some 4 ∧
      markAsRead (markAsRead unreadNotification 4) 7 =
        markAsRead unreadNotification 4) :=
  ⟨rfl, markAsRead_idempotent unreadNotification 4 7 rfl⟩

/-- C8: every successful run of the (operative, lucky_night)
`advance_approval_workflow` appends exactly one approval row whose `step`
is `COALESCE(MAX(step), 0) + 1` over the rows recorded so far — in
particular step 1 when no approvals exist — and reports that step in its
result. -/
theorem decide_step_numbering (st : WorkflowState) (app : Application)
    (apr action : String) (c : Option String) (now : Nat)
    (happ : st.app = some app) :
    (advance_approval_workflow st apr action c now).2.success = true ∧
    (advance_approval_workflow st apr action c now).1.approvals =
      st.approvals ++
        [{ application_id := app.id
           approver_id := apr
           step := some (maxStep st.approvals + 1)
           status := action
           comment := c }] ∧
    (advance_approval_workflow st apr action c now).2.step =
      some (maxStep st.approvals + 1) ∧
    (st.approvals = [] →
      (advance_approval_workflow st apr action c now).1.approvals =
        [{ application_id := app.id
           approver_id := apr
           step := some 1
           status := action
           comment := c }]) := by
  refine ⟨?_, ?_, ?_, ?_⟩ <;>
    simp [advance_approval_workflow, happ, wfOk]
  intro hnil
  simp [hnil, maxStep]

/-- Witness for `decide_step_numbering` on the pending fixture (no prior
approvals, so the recorded step is 1). -/
theorem decide_step_numbering_witness :
    stPending.app = some appPending ∧
    ((advance_approval_workflow stPending "apr-1" "approved" none 5).2.success
        = true ∧
      (advance_approval_workflow stPending "apr-1" "approved" none 5).1.approvals
        = stPending.approvals ++
          [{ application_id := appPending.id
             approver_id := "apr-1"
             step := some (maxStep stPending.approvals + 1)
             status := "approved"
             comment := none }] ∧
      (advance_approval_workflow stPending "apr-1" "approved" none 5).2.step =
        some (maxStep stPending.approvals + 1) ∧
      (stPending.approvals = [] →
        (advance_approval_workflow stPending "apr-1" "approved" none 5).1.approvals
          = [{ application_id := appPending.id
               approver_id := "apr-1"
               step := some 1
               status := "approved"
               comment := none }])) :=
  ⟨rfl, decide_step_numbering stPending appPending "apr-1" "approved" none 5 rfl⟩

/-- C10 counterexample: the operative (lucky_night)
`advance_approval_workflow`, run on an existing application with the
unrecognised action `"cancelled"`, inserts a notification row — whose
`CASE`-built title and message are both SQL `NULL` — so the claim's
"creates no notification" is false for it (the earlier maroon_tooth
variant does skip the notification). -/
theorem unvalidated_action_cex :
    (advance_approval_workflow stPending "apr-1" "cancelled" none 5).1.notifications
      = [mkNotification "user-1" "approval" none none] ∧
    (advance_approval_workflow stPending "apr-1" "cancelled" none 5).2.success
      = true := by
  constructor <;> rfl

/-- C10 (amended): neither variant of `advance_approval_workflow`
validates the action: for any existing application and any action outside
approved/rejected/returned, both insert an approval row carrying the raw
action, update no application field, and report success; the maroon_tooth
variant creates no notification, while the lucky_night variant inserts one
notification whose title and message are `NULL`. -/
theorem unvalidated_action_behavior (st : WorkflowState) (app : Application)
    (apr action : String) (c : Option String) (now : Nat)
    (happ : st.app = some app)
    (h1 : action ≠ "approved") (h2 : action ≠ "rejected")
    (h3 : action ≠ "returned") :
    (advance_approval_workflow_mt st apr action c now).1.app = st.app ∧
    (advance_approval_workflow_mt st apr action c now).1.notifications =
      st.notifications ∧
    (advance_approval_workflow_mt st apr action c now).1.approvals =
      st.approvals ++
        [{ application_id := app.id
           approver_id := apr
           step := none
           status := action
           comment := c }] ∧
    (advance_approval_workflow_mt st apr action c now).2.success = true ∧
    (advance_approval_workflow st apr action c now).1.app = st.app ∧
    (advance_approval_workflow st apr action c now).1.approvals =
      st.approvals ++
        [{ application_id := app.id
           approver_id := apr
           step := some (maxStep st.approvals + 1)
           status := action
           comment := c }] ∧
    (advance_approval_workflow st apr action c now).1.notifications =
      st.notifications ++ [mkNotification app.user_id "approval" none none] ∧
    (advance_approval_workflow st apr action c now).2.success = true := by
  refine ⟨?_, ?_, ?_, ?_, ?_, ?_, ?_, ?_⟩ <;>
    simp [advance_approval_workflow_mt, advance_approval_workflow, happ,
      wfOk, h1, h2, h3, lnTitle, lnMessage]

/-- Witness for `unvalidated_action_behavior` with the action
`"cancelled"` on the pending fixture. -/
theorem unvalidated_action_behavior_witness :
    stPending.app = some appPending ∧
    ("cancelled" : String) ≠ "approved" ∧
    ("cancelled" : String) ≠ "rejected" ∧
    ("cancelled" : String) ≠ "returned" ∧
    ((advance_approval_workflow_mt stPending "apr-1" "cancelled" none 5).1.app
        = stPending.app ∧
      (advance_approval_workflow_mt stPending "apr-1" "cancelled" none 5).1.notifications
        = stPending.notifications ∧
      (advance_approval_workflow_mt stPending "apr-1" "cancelled" none 5).1.approvals
        = stPending.approvals ++
          [{ application_id := appPending.id
             approver_id := "apr-1"
             step := none
             status := "cancelled"
             comment := none }] ∧
      (advance_approval_workflow_mt stPending "apr-1" "cancelled" none 5).2.success
        = true ∧
      (advance_approval_workflow stPending "apr-1" "cancelled" none 5).1.app
        = stPending.app ∧
      (advance_approval_workflow stPending "apr-1" "cancelled" none 5).1.approvals
        = stPending.approvals ++
          [{ application_id := appPending.id
             approver_id := "apr-1"
             step := some (maxStep stPending.approvals + 1)
             status := "cancelled"
             comment := none }] ∧
      (advance_approval_workflow stPending "apr-1" "cancelled" none 5).1.notifications
        = stPending.notifications ++
          [mkNotification appPending.user_id "approval" none none] ∧
      (advance_approval_workflow stPending "apr-1" "cancelled" none 5).2.success
        = true) :=
  ⟨rfl, by decide, by decide, by decide,
    unvalidated_action_behavior stPending appPending "apr-1" "cancelled" none 5
      rfl (by decide) (by decide) (by decide)⟩

/-- C1 counterexample: running the operative `advance_approval_workflow`
on an application whose status is `draft` does not fail — it reports
success and changes both the application and the approvals, contrary to
"fails with InvalidStateError and leaves the application, the approvals,
and the notifications unchanged". -/
theorem decide_nonpending_cex :
    (advance_approval_workflow stDraft "apr-1" "approved" none 5).2.success
      = true ∧
    (advance_approval_workflow stDraft "apr-1" "approved" none 5).1.approvals
      ≠ stDraft.approvals ∧
    (advance_approval_workflow stDraft "apr-1" "approved" none 5).1.app
      ≠ stDraft.app ∧
    (advance_approval_workflow stDraft "apr-1" "approved" none 5).1.notifications
      ≠ stDraft.notifications := by
  refine ⟨rfl, by decide, by decide, by decide⟩

/-- C1 (amended): neither variant of `advance_approval_workflow` inspects
the current status: for every existing application — whatever its status —
and every action, both variants insert an approval row and report
success; the only failure either can report is `Application not found`
when the application does not exist (in which case nothing changes). -/
theorem decide_ignores_status (st : WorkflowState) (app : Application)
    (apr action : String) (c : Option String) (now : Nat)
    (happ : st.app = some app) :
    (advance_approval_workflow st apr action c now).2.success = true ∧
    (advance_approval_workflow st apr action c now).1.approvals.length =
      st.approvals.length + 1 ∧
    (advance_approval_workflow_mt st apr action c now).2.success = true ∧
    (advance_approval_workflow_mt st apr action c now).1.approvals.length =
      st.approvals.length + 1 ∧
    (∀ (st' : WorkflowState) (apr' action' : String) (c' : Option String)
        (now' : Nat), st'.app = none →
      advance_approval_workflow st' apr' action' c' now' = (st', wfNotFound) ∧
      advance_approval_workflow_mt st' apr' action' c' now' =
        (st', wfNotFound)) := by
  refine ⟨?_, ?_, ?_, ?_, ?_⟩
  · simp [advance_approval_workflow, happ, wfOk]
  · simp [advance_approval_workflow, happ]
  · simp only [advance_approval_workflow_mt, happ]
    split_ifs <;> simp [wfOk]
  · simp only [advance_approval_workflow_mt, happ]
    split_ifs <;> simp
  · intro st' apr' action' c' now' h
    constructor <;> simp [advance_approval_workflow,
      advance_approval_workflow_mt, h]

/-- Witness for `decide_ignores_status` on the draft fixture. -/
theorem decide_ignores_status_witness :
    stDraft.app = some appDraft ∧
    ((advance_approval_workflow stDraft "apr-1" "approved" none 5).2.success
        = true ∧
      (advance_approval_workflow stDraft "apr-1" "approved" none 5).1.approvals.length
        = stDraft.approvals.length + 1 ∧
      (advance_approval_workflow_mt stDraft "apr-1" "approved" none 5).2.success
        = true ∧
      (advance_approval_workflow_mt stDraft "apr-1" "approved" none 5).1.approvals.length
        = stDraft.approvals.length + 1 ∧
      (∀ (st' : WorkflowState) (apr' action' : String) (c' : Option String)
          (now' : Nat), st'.app = none →
        advance_approval_workflow st' apr' action' c' now' = (st', wfNotFound) ∧
        advance_approval_workflow_mt st' apr' action' c' now' =
          (st', wfNotFound))) :=
  ⟨rfl, decide_ignores_status stDraft appDraft "apr-1" "approved" none 5 rfl⟩

/-- C2 counterexample: a `rejected` decision with an empty comment does
not fail — the operative `advance_approval_workflow` reports success,
records the approval and sets status `rejected` with the empty string as
`rejection_reason`, contrary to "fails with ValidationError (no approval
record, no status change, no notification)". -/
theorem decide_empty_comment_cex :
    (advance_approval_workflow stPending "apr-1" "rejected" (some "") 5).2.success
      = true ∧
    (advance_approval_workflow stPending "apr-1" "rejected" (some "") 5).1.app
      = some { appPending with
                status := "rejected"
                rejection_reason := some "" } ∧
    (advance_approval_workflow stPending "apr-1" "rejected" (some "") 5).1.approvals.length
      = 1 ∧
    (advance_approval_workflow stPending "apr-1" "rejected" (some "") 5).1.notifications.length
      = 1 := by
  refine ⟨rfl, rfl, rfl, rfl⟩

/-- C2 (amended): the decide path performs no comment validation at all:
for any existing application, `rejected` and `returned` decisions succeed
with any comment (including none), `rejected` storing the raw comment as
`rejection_reason`; the `application-approval` edge function even coerces
an empty comment to SQL `NULL` before the call (`comment || null`).  (The
only empty-comment guard in the repository is a client-side `alert` in the
React approval screen.) -/
theorem decide_no_comment_validation (st : WorkflowState) (app : Application)
    (apr : String) (c : Option String) (now : Nat)
    (happ : st.app = some app) :
    (advance_approval_workflow st apr "rejected" c now).2.success = true ∧
    (advance_approval_workflow st apr "rejected" c now).1.app =
      some { app with status := "rejected", rejection_reason := c } ∧
    (advance_approval_workflow st apr "returned" c now).2.success = true ∧
    (advance_approval_workflow st apr "returned" c now).1.app =
      some { app with status := "returned" } ∧
    emptyToNull (some "") = none ∧
    emptyToNull none = none ∧
    (∀ s : String, s ≠ "" → emptyToNull (some s) = some s) := by
  refine ⟨?_, ?_, ?_, ?_, rfl, rfl, ?_⟩
  · simp [advance_approval_workflow, happ, wfOk]
  · simp [advance_approval_workflow, happ]
  · simp [advance_approval_workflow, happ, wfOk]
  · simp [advance_approval_workflow, happ]
  · intro s h
    simp [emptyToNull, h]

/-- Witness for `decide_no_comment_validation` on the pending fixture
with an empty comment. -/
theorem decide_no_comment_validation_witness :
    stPending.app = some appPending ∧
    ((advance_approval_workflow stPending "apr-1" "rejected" (some "") 5).2.success
        = true ∧
      (advance_approval_workflow stPending "apr-1" "rejected" (some "") 5).1.app
        = some { appPending with
                  status := "rejected"
                  rejection_reason := some "" } ∧
      (advance_approval_workflow stPending "apr-1" "returned" (some "") 5).2.success
        = true ∧
      (advance_approval_workflow stPending "apr-1" "returned" (some "") 5).1.app
        = some { appPending with status := "returned" } ∧
      emptyToNull (some "") = none ∧
      emptyToNull none = none ∧
      (∀ s : String, s ≠ "" → emptyToNull (some s) = some s)) :=
  ⟨rfl, decide_no_comment_validation stPending appPending "apr-1" (some "") 5
    rfl⟩

/-- The state after create → submit → decide(`returned`, "missing
receipt"): used to exhibit a reachable `returned` application whose
`rejection_reason` is still `NULL`. -/
def c3ReturnedState : WorkflowState :=
  (advance_approval_workflow (submitApplication stDraft 1).1 "apr-1"
    "returned" (some "missing receipt") 2).1

/-- The state after create → submit → decide(approved) → decide(approved)
→ decide(`rejected`, "no"): a reachable `rejected` application whose
`approved_at` is still set. -/
def c3RejectedState : WorkflowState :=
  (advance_approval_workflow
    (advance_approval_workflow
      (advance_approval_workflow (submitApplication stDraft 1).1 "apr-1"
        "approved" none 2).1
      "apr-2" "approved" none 3).1
    "apr-3" "rejected" (some "no") 4).1

/-- C3 counterexample: two states reachable through create/submit/decide
violate the claimed invariant — a successful `returned` decision with the
non-empty comment "missing receipt" leaves `rejection_reason` `NULL`
(the SQL workflow never writes it on return), and a `rejected` application
can retain a non-`NULL` `approved_at` (decide is not blocked on an already
approved application), so neither the `rejected/returned ⇒ rejection_reason`
implication nor the `approved_at ⇔ approved` biconditional holds. -/
theorem invariant_cex :
    c3ReturnedState.app.map Application.status = some "returned" ∧
    c3ReturnedState.app.map Application.rejection_reason = some none ∧
    c3RejectedState.app.map Application.status = some "rejected" ∧
    c3RejectedState.app.map Application.approved_at = some (some 3) := by
  refine ⟨rfl, rfl, rfl, rfl⟩

/-- C3 (amended): along the single-decision path create → submit → one
decide (through the operative SQL workflow), `approved_at`/`approved_by`
are non-null exactly when the status is `approved`, a `rejected` status
carries the raw comment (possibly null) as `rejection_reason`, but a
`returned` status always has `rejection_reason` null — only the
client-side `handleApproval` path writes `rejection_reason` on a
`returned` decision.  (Beyond that path the biconditional fails, since
nothing stops further decide calls; see the counterexample.) -/
theorem decide_field_invariant (uid ty title id : String) (data : AppData)
    (t0 t1 t2 : Nat) (apr action : String) (c : Option String)
    (haction : action = "approved" ∨ action = "rejected" ∨
      action = "returned") :
    (∀ a : Application,
      (advance_approval_workflow
        (submitApplication
          { app := some (createApplication uid ty title data id t0)
            approvals := []
            notifications := []
            logs := [] } t1).1 apr action c t2).1.app = some a →
      ((a.status = "approved" ↔ a.approved_at.isSome ∧ a.approved_by.isSome) ∧
       (a.status = "returned" → a.rejection_reason = none) ∧
       (a.status = "rejected" → a.rejection_reason = c))) ∧
    (∀ (st : WorkflowState) (app : Application) (uid' : String)
        (cm : Option String) (now : Nat), st.app = some app →
      (handleApproval st uid' "returned" cm now).1.app =
        some { app with
                status := "returned"
                rejection_reason := cm
                updated_at := now }) := by
  constructor
  · rcases haction with h | h | h <;> subst h <;> intro a ha <;>
      simp [advance_approval_workflow, submitApplication, createApplication,
        maxStep] at ha <;> subst ha <;> simp
  · intro st app uid' cm now happ
    simp [handleApproval, happ]

/-- Witness for `decide_field_invariant` with the `returned` action on a
concrete expense application. -/
theorem decide_field_invariant_witness :
    (("returned" : String) = "approved" ∨ ("returned" : String) = "rejected" ∨
      ("returned" : String) = "returned") ∧
    ((∀ a : Application,
      (advance_approval_workflow
        (submitApplication
          { app := some (createApplication "user-1" "expense" "経費申請"
              ⟨none, some [⟨some 3000⟩, ⟨some 4500⟩]⟩ "app-1" 0)
            approvals := []
            notifications := []
            logs := [] } 1).1 "apr-1" "returned" (some "missing receipt") 2).1.app
          = some a →
      ((a.status = "approved" ↔ a.approved_at.isSome ∧ a.approved_by.isSome) ∧
       (a.status = "returned" → a.rejection_reason = none) ∧
       (a.status = "rejected" → a.rejection_reason = some "missing receipt"))) ∧
    (∀ (st : WorkflowState) (app : Application) (uid' : String)
        (cm : Option String) (now : Nat), st.app = some app →
      (handleApproval st uid' "returned" cm now).1.app =
        some { app with
                status := "returned"
                rejection_reason := cm
                updated_at := now })) :=
  ⟨Or.inr (Or.inr rfl),
    decide_field_invariant "user-1" "expense" "経費申請" "app-1"
      ⟨none, some [⟨some 3000⟩, ⟨some 4500⟩]⟩ 0 1 2 "apr-1" "returned"
      (some "missing receipt") (Or.inr (Or.inr rfl))⟩

/-- C4 counterexample: two decide calls on the same pending application
both report success and two approval rows result — no conditional update
guards the status, so neither call observes a conflict, contrary to
"exactly one succeeds and exactly one Approval row results". -/
theorem decide_race_cex :
    (advance_approval_workflow stPending "apr-1" "approved" none 5).2.success
      = true ∧
    (advance_approval_workflow
      (advance_approval_workflow stPending "apr-1" "approved" none 5).1
      "apr-2" "approved" none 6).2.success = true ∧
    (advance_approval_workflow
      (advance_approval_workflow stPending "apr-1" "approved" none 5).1
      "apr-2" "approved" none 6).1.approvals.length = 2 := by
  refine ⟨rfl, rfl, rfl⟩

/-- C4 (amended): the status update of `advance_approval_workflow` is an
unconditional `UPDATE ... WHERE id = ?` with no `status = 'pending'`
guard and no zero-rows check, so when two decide calls hit the same
pending application (under any interleaving, including fully serialised
execution, which is the best case for the code) both succeed, two approval
rows are inserted, and the final status is simply that of the last writer
— no ConflictError or InvalidStateError is ever produced. -/
theorem decide_no_cas (st : WorkflowState) (app : Application)
    (apr1 apr2 action : String) (c : Option String) (t1 t2 : Nat)
    (happ : st.app = some app) :
    (advance_approval_workflow st apr1 action c t1).2.success = true ∧
    (advance_approval_workflow
      (advance_approval_workflow st apr1 action c t1).1 apr2 action c
      t2).2.success = true ∧
    (advance_approval_workflow
      (advance_approval_workflow st apr1 action c t1).1 apr2 action c
      t2).1.approvals.length = st.approvals.length + 2 := by
  refine ⟨?_, ?_, ?_⟩ <;>
    simp [advance_approval_workflow, happ, wfOk]

/-- Witness for `decide_no_cas` on the pending fixture. -/
theorem decide_no_cas_witness :
    stPending.app = some appPending ∧
    ((advance_approval_workflow stPending "apr-1" "approved" none 5).2.success
        = true ∧
      (advance_approval_workflow
        (advance_approval_workflow stPending "apr-1" "approved" none 5).1
        "apr-2" "approved" none 6).2.success = true ∧
      (advance_approval_workflow
        (advance_approval_workflow stPending "apr-1" "approved" none 5).1
        "apr-2" "approved" none 6).1.approvals.length =
          stPending.approvals.length + 2) :=
  ⟨rfl, decide_no_cas stPending appPending "apr-1" "apr-2" "approved" none 5 6
    rfl⟩

/-- C7 counterexample: `submitApplication` on an already `approved`
application succeeds and drags the status back to `pending`, contrary to
"from any other status it fails with InvalidStateError and changes
nothing". -/
theorem submit_nonDraft_cex :
    (submitApplication stApproved 9).2 = true ∧
    (submitApplication stApproved 9).1.app =
      some { appApproved with
              status := "pending"
              submitted_at := some 9
              updated_at := 9 } := by
  refine ⟨rfl, rfl⟩

/-- C7 (amended): `submitApplication` never checks the current status: for
every existing application — in any status — it succeeds, setting status
to `pending` and `submitted_at` to the current time; it fails only when no
application row matches the id, and then changes nothing. -/
theorem submit_unconditional (st : WorkflowState) (app : Application)
    (now : Nat) (happ : st.app = some app) :
    (submitApplication st now).2 = true ∧
    (submitApplication st now).1.app =
      some { app with
              status := "pending"
              submitted_at := some now
              updated_at := now } ∧
    (∀ st' : WorkflowState, st'.app = none →
      submitApplication st' now = (st', false)) := by
  refine ⟨?_, ?_, ?_⟩
  · simp [submitApplication, happ]
  · simp [submitApplication, happ]
  · intro st' h
    simp [submitApplication, h]

/-- Witness for `submit_unconditional` on the approved fixture. -/
theorem submit_unconditional_witness :
    stApproved.app = some appApproved ∧
    ((submitApplication stApproved 9).2 = true ∧
      (submitApplication stApproved 9).1.app =
        some { appApproved with
                status := "pending"
                submitted_at := some 9
                updated_at := 9 } ∧
      (∀ st' : WorkflowState, st'.app = none →
        submitApplication st' 9 = (st', false))) :=
  ⟨rfl, submit_unconditional stApproved appApproved 9 rfl⟩

/-- The approval request of a final `approved` decision. -/
def approvedReq : ApprovalRequest :=
  { applicationId := "app-1"
    action := "approved"
    comment := none
    approverId := "apr-1" }

/-- Accounting environment with no configured service credentials. -/
def envNoCreds : AccountingEnv :=
  { serviceName := "freee", credentials := none, call := .fail "unused" }

/-- Accounting environment whose external service call fails. -/
def envHttpFail : AccountingEnv :=
  { serviceName := "freee"
    credentials := some "token"
    call := .fail "Freee API error: 500 - upstream" }

/-- C6: when the accounting call fails during an `approved` decision, the
application does end `approved` with the submitter notified and the
response still reports success (the failure is only warned about, never
unwound) — but no `accounting_integration_logs` row is written at all:
the failure-log insert passes the request action `create_entry` as
`operation_type`, which the table's CHECK constraint
(`operation_type IN ('create','update','delete')`, maroon_tooth.sql line
357) rejects, and the insert error is swallowed.  Had a permitted
operation type been used, the failed row would have been recorded, as the
last conjunct shows. -/
theorem accounting_failure_behavior :
    operationTypeAllowed "create_entry" = false ∧
    (applicationApproval stPendingStep1 approvedReq true (.reached envNoCreds)
        9).1.app.map Application.status = some "approved" ∧
    (applicationApproval stPendingStep1 approvedReq true (.reached envNoCreds)
        9).1.app.map Application.approved_at = some (some 9) ∧
    (applicationApproval stPendingStep1 approvedReq true (.reached envNoCreds)
        9).1.notifications.length = 1 ∧
    (applicationApproval stPendingStep1 approvedReq true (.reached envNoCreds)
        9).2 = { status := 200, success := true } ∧
    (applicationApproval stPendingStep1 approvedReq true (.reached envNoCreds)
        9).1.logs = [] ∧
    (applicationApproval stPendingStep1 approvedReq true (.reached envHttpFail)
        9).1.app.map Application.status = some "approved" ∧
    (applicationApproval stPendingStep1 approvedReq true (.reached envHttpFail)
        9).2 = { status := 200, success := true } ∧
    (applicationApproval stPendingStep1 approvedReq true (.reached envHttpFail)
        9).1.logs = [] ∧
    logAccountingOperation [] "app-1" "freee" "create" "failed"
        (some "Freee API error: 500 - upstream") =
      [{ application_id := "app-1"
         service_name := "freee"
         operation_type := "create"
         status := "failed"
         error_message := some "Freee API error: 500 - upstream"
         retry_count := 0 }] := by
  refine ⟨rfl, rfl, rfl, rfl, rfl, rfl, rfl, rfl, rfl, rfl⟩

end Kenja
